import Mathlib

/-!
Verification of the OKey NHL predictor core (src/main.py).

The numeric domain of the Python code is embedded as `ℚ`.  Optional /
missing JSON fields are embedded as `Option` values, and Python's
truthiness-based `x or d` defaulting (where `None`, `0`, `""` and empty
containers are falsy) is embedded by the `pyOr*` helpers below.
-/

namespace Okey

/-- Python `x or d` for an optional numeric field: both a missing value
(`None`) and an exact-zero value are falsy, so both fall back to `d`.
This mirrors e.g. `home.get("gf_per_game") or 2.7` in
`expected_goals_from_team_stats`. -/
def pyOrQ (x : Option ℚ) (d : ℚ) : ℚ :=
  match x with
  | none => d
  | some v => if v = 0 then d else v

/-- Python `x or d` for an optional string field: `None` and `""` are falsy. -/
def pyOrStr (x : Option String) (d : String) : String :=
  match x with
  | none => d
  | some s => if s = "" then d else s

/-- A raw team record from `teamsStats.json` as consumed by `build_team_df`
(each field may be absent, embedded as `Option`). -/
structure RawTeam where
  abrev : Option String
  abbrevAlt : Option String
  teamName : Option String
  gamesPlayed : Option ℕ
  goalAgainst : Option ℤ
  goalDifferential : Option ℤ
  points : Option ℤ
deriving DecidableEq

/-- One row of the table built by `build_team_df` (src/main.py lines 35-59). -/
structure TeamRow where
  abbr : String
  teamName : String
  gamesPlayed : ℕ
  points : ℤ
  goalFor : Option ℤ
  goalAgainst : ℤ
  goalDiff : ℤ
  gf_per_game : Option ℚ
  ga_per_game : Option ℚ
deriving DecidableEq

/-- `build_team_df`, per row.  `gf` is reconstructed as
`goalDifferential + goalAgainst`, and the per-game rates are `None`
exactly when `gamesPlayed` is falsy (zero or missing). -/
def build_team_row (t : RawTeam) : TeamRow :=
  let ab := pyOrStr t.abrev (pyOrStr t.abbrevAlt "")
  let gp := t.gamesPlayed.getD 0
  let ga := t.goalAgainst.getD 0
  let gd := t.goalDifferential.getD 0
  { abbr := ab
    teamName := t.teamName.getD ""
    gamesPlayed := gp
    points := t.points.getD 0
    goalFor := if gp ≠ 0 then some (gd + ga) else none
    goalAgainst := ga
    goalDiff := gd
    gf_per_game := if gp ≠ 0 then some (((gd + ga : ℤ) : ℚ) / (gp : ℚ)) else none
    ga_per_game := if gp ≠ 0 then some ((ga : ℚ) / (gp : ℚ)) else none }

/-- The scoring rate that enters the λ formulas:
`home.get("gf_per_game") or 2.7` (src/main.py lines 145, 147). -/
def entering_gf (r : TeamRow) : ℚ := pyOrQ r.gf_per_game (27/10)

/-- The conceding rate that enters the λ formulas:
`home.get("ga_per_game") or 2.9` (src/main.py lines 146, 148). -/
def entering_ga (r : TeamRow) : ℚ := pyOrQ r.ga_per_game (29/10)

/-- `expected_goals_from_team_stats` (src/main.py lines 143-155).
The call site uses `home_adv = 0.12`; we keep it as a parameter. -/
def expected_goals_from_team_stats (home away : TeamRow) (home_adv : ℚ) : ℚ × ℚ :=
  let h_gf := entering_gf home
  let h_ga := entering_ga home
  let a_gf := entering_gf away
  let a_ga := entering_ga away
  let lam_home := 55/100 * h_gf + 45/100 * a_ga + home_adv
  let lam_away := 55/100 * a_gf + 45/100 * h_ga
  (max (2/10) (min 6 lam_home), max (1/10) (min 6 lam_away))

/-- pandas `Series.clip(lo, hi)` on a single value. -/
def clip (lo hi x : ℚ) : ℚ := min hi (max lo x)

/-- Season points per game: `points / gamesPlayed if gamesPlayed > 0 else 0.0`
(src/main.py line 74). -/
def ppg_val (points : ℚ) (gp : ℕ) : ℚ := if 0 < gp then points / (gp : ℚ) else 0

/-- `form_factor` as computed in `build_player_df` (src/main.py lines 137-139):
recent rate over season rate when the season rate is positive, else `1.0`,
then clipped to `[0.5, 1.5]`. -/
def form_factor (form5 ppgv : ℚ) : ℚ :=
  clip (1/2) (3/2) (if 0 < ppgv then form5 / ppgv else 1)

/-- A Python value sitting in a player record's `position` / `pos` field:
absent or `None`, a string, or a dict (whose relevant entries map string
keys to optional strings). -/
inductive PyPos where
  | pynone : PyPos
  | pystr : String → PyPos
  | pydict : List (String × Option String) → PyPos
deriving DecidableEq

/-- Python truthiness of a `position` value: `None`, `""` and `{}` are falsy. -/
def PyPos.falsy : PyPos → Bool
  | .pynone => true
  | .pystr s => s == ""
  | .pydict es => es.isEmpty

/-- Python `dict.get(k)`: the stored value (which may itself be `None`),
or `None` when the key is absent; non-dicts have no keys. -/
def PyPos.get : PyPos → String → Option String
  | .pydict es, k => (es.lookup k).getD none
  | _, _ => none

/-- Python `s.upper()` (ASCII): upper-case every character.  This is the
character-wise specification of `String.toUpper`, stated over the
underlying character list so that it reduces structurally. -/
def pyUpper (s : String) : String := String.mk (s.data.map Char.toUpper)

/-- Is the character list `needle` a contiguous sublist of the haystack?
This is Python's `needle in haystack` on strings. -/
def hasSub (needle : List Char) : List Char → Bool
  | [] => needle.isEmpty
  | c :: rest => needle.isPrefixOf (c :: rest) || hasSub needle rest

/-- Python `needle in hay` for strings. -/
def strHas (hay needle : String) : Bool := hasSub needle.toList hay.toList

/-- `_is_goalie` (src/main.py lines 212-221): resolve
`raw.get("position") or raw.get("pos") or {}`, then look for `"G"` or
`"GOAL"` in the upper-cased position code/string. -/
def is_goalie (position pos : PyPos) : Bool :=
  let p := if position.falsy then (if pos.falsy then PyPos.pydict [] else pos) else position
  match p with
  | .pydict _ =>
      let code := pyUpper (pyOrStr (p.get "code")
        (pyOrStr (p.get "abbrev") (pyOrStr (p.get "name") "")))
      strHas code "G" || strHas code "GOAL"
  | .pystr s =>
      let up := pyUpper s
      strHas up "G" || strHas up "GOAL"
  | .pynone => false

/-- A normalized player row as used by `apply_player_form_adjustment` and
`_effective_players_for_game`: the columns added by `build_player_df`
(`team_abbrev`, `gamesPlayed`, `points`, `form5_ppg`) together with the
raw-record fields the effectiveness ranker reads.  The numeric raw fields
are embedded after `_safe_num` / `_parse_toi` resolution (with their
defaults already applied: `corsiForPct` defaults to 50, the others to 0),
since those resolvers only normalize a single field's representation. -/
structure PlayerRec where
  name : String
  team_abbrev : String
  gamesPlayed : ℕ
  points : ℚ
  form5_ppg : ℚ
  position : PyPos
  pos : PyPos
  shots : ℚ
  shotsOnGoal : ℚ
  hits : ℚ
  blocked : ℚ
  plusMinus : ℚ
  penaltyMinutes : ℚ
  corsiForPct : ℚ
  toi_min : ℚ
deriving DecidableEq

/-- Season points per game of a player row (src/main.py line 74). -/
def ppg (p : PlayerRec) : ℚ := ppg_val p.points p.gamesPlayed

/-- The player's clipped form factor (src/main.py lines 137-139). -/
def player_form_factor (p : PlayerRec) : ℚ := form_factor p.form5_ppg (ppg p)

/-- Shots per game (src/main.py line 305). -/
def shots_pg (p : PlayerRec) : ℚ :=
  if 0 < p.gamesPlayed then p.shots / (p.gamesPlayed : ℚ) else 0

/-- Shots on goal per game (src/main.py line 306). -/
def sog_pg (p : PlayerRec) : ℚ :=
  if 0 < p.gamesPlayed then p.shotsOnGoal / (p.gamesPlayed : ℚ) else 0

/-- Hits per game (src/main.py line 307). -/
def hits_pg (p : PlayerRec) : ℚ :=
  if 0 < p.gamesPlayed then p.hits / (p.gamesPlayed : ℚ) else 0

/-- Blocked shots per game (src/main.py line 308). -/
def blocks_pg (p : PlayerRec) : ℚ :=
  if 0 < p.gamesPlayed then p.blocked / (p.gamesPlayed : ℚ) else 0

/-- Penalty minutes per game; falls back to the raw value when
`gamesPlayed = 0` (src/main.py line 309). -/
def pim_pg (p : PlayerRec) : ℚ :=
  if 0 < p.gamesPlayed then p.penaltyMinutes / (p.gamesPlayed : ℚ) else p.penaltyMinutes

/-- `base_score` of the effectiveness ranker (src/main.py lines 312-326). -/
def base_score (p : PlayerRec) : ℚ :=
  40/100 * p.form5_ppg + 15/100 * ppg p
    + 12/100 * shots_pg p + 8/100 * sog_pg p
    + 10/100 * (p.toi_min / 20)
    + 8/100 * ((p.corsiForPct - 50) / 50)
    + 7/100 * ((hits_pg p + blocks_pg p) / 2)

/-- `adj_score` before the tie-breaker (src/main.py lines 329-333). -/
def adj_score (p : PlayerRec) : ℚ :=
  base_score p + 6/100 * (p.plusMinus / 1) - 3/100 * pim_pg p
    - (if p.gamesPlayed < 3 then 25/100 else 0)

/-- `tie_break` (src/main.py line 336): season points-per-game times 0.002
plus `min(gamesPlayed, 82) / 1000`. -/
def tie_break (p : PlayerRec) : ℚ :=
  ppg p * (2/1000) + ((min p.gamesPlayed 82 : ℕ) : ℚ) / 1000

/-- One row of the table returned by `_effective_players_for_game`
(the fields the claims refer to; the stored `adj_score` column holds
`adj_score + tie_break`, src/main.py line 354). -/
structure EffRow where
  name : String
  team : String
  gamesPlayed : ℕ
  form5_ppg : ℚ
  ppg : ℚ
  adj_score : ℚ
deriving DecidableEq

/-- The row built for one eligible player (src/main.py lines 338-355). -/
def mkRow (p : PlayerRec) : EffRow :=
  { name := p.name
    team := pyUpper p.team_abbrev
    gamesPlayed := p.gamesPlayed
    form5_ppg := p.form5_ppg
    ppg := ppg p
    adj_score := adj_score p + tie_break p }

/-- A game from `todayGames.json`, reduced to the two team abbreviations
that `_effective_players_for_game` reads (already `or ""`-resolved). -/
structure GameRec where
  homeAbbrev : String
  awayAbbrev : String
deriving DecidableEq

/-- The loop filter of `_effective_players_for_game` (src/main.py
lines 270-280): keep players on one of the two teams, skip goalies. -/
def eligible_players (game : GameRec) (ps : List PlayerRec) : List PlayerRec :=
  ps.filter (fun p =>
    (pyUpper p.team_abbrev == pyUpper game.homeAbbrev
      || pyUpper p.team_abbrev == pyUpper game.awayAbbrev)
    && !(is_goalie p.position p.pos))

/-- `_effective_players_for_game` (src/main.py lines 255-362): build a row
per eligible skater and sort by the stored score, descending.  pandas'
default sort is unstable, so the tie order is unspecified in the source;
we use insertion sort, which agrees with it on all strict comparisons. -/
def effective_players_for_game (game : GameRec) (ps : List PlayerRec) : List EffRow :=
  if ((eligible_players game ps).map mkRow).isEmpty then []
  else ((eligible_players game ps).map mkRow).insertionSort
    (fun a b => b.adj_score ≤ a.adj_score)

/-- The players of one team, by case-insensitive abbreviation match
(src/main.py line 185). -/
def teamPlayers (abv : String) (ps : List PlayerRec) : List PlayerRec :=
  ps.filter (fun p => pyUpper p.team_abbrev == pyUpper abv)

/-- The regular contributors whose form factors are averaged by
`apply_player_form_adjustment` (src/main.py lines 189-191): team players
with `gamesPlayed > 0`, sorted by `gamesPlayed` descending, first 9; if
none has games played, the first 9 team players unsorted. -/
def teamCandidates (abv : String) (ps : List PlayerRec) : List PlayerRec :=
  let tp := teamPlayers abv ps
  let cands :=
    ((tp.filter (fun p => 0 < p.gamesPlayed)).insertionSort
      (fun a b => b.gamesPlayed ≤ a.gamesPlayed)).take 9
  if cands.isEmpty then tp.take 9 else cands

/-- Arithmetic mean of a list of rationals (pandas `Series.mean`). -/
def listMean (l : List ℚ) : ℚ := l.sum / (l.length : ℚ)

/-- `team_factor` inside `apply_player_form_adjustment` (src/main.py
lines 182-195): 1.0 for an empty abbreviation or a team with no players,
otherwise the contributors' average form factor clamped to [0.85, 1.15]. -/
def team_factor (abv : String) (ps : List PlayerRec) : ℚ :=
  if abv = "" then 1
  else if (teamPlayers abv ps).isEmpty then 1
  else max (85/100) (min (115/100)
    (listMean ((teamCandidates abv ps).map player_form_factor)))

/-- `apply_player_form_adjustment` (src/main.py lines 180-201): returns
`(lam_home_adj, lam_away_adj, home_factor, away_factor)`. -/
def apply_player_form_adjustment (home_ab away_ab : String) (ps : List PlayerRec)
    (lam_home lam_away : ℚ) : ℚ × ℚ × ℚ × ℚ :=
  (lam_home * team_factor home_ab ps, lam_away * team_factor away_ab ps,
    team_factor home_ab ps, team_factor away_ab ps)

/-- The result dict of `monte_carlo_game` (src/main.py lines 169-176). -/
structure MCResult where
  home_win_prob : ℚ
  away_win_prob : ℚ
  draw_prob : ℚ
  avg_home_goals : ℚ
  avg_away_goals : ℚ
  avg_total_goals : ℚ
deriving DecidableEq

/-- The aggregation step of `monte_carlo_game` (src/main.py lines 162-176)
on the two sampled goal vectors: elementwise comparison counts divided by
the trial count, and sample means. -/
def mc_aggregate (home_goals away_goals : List ℕ) (sims : ℕ) : MCResult :=
  { home_win_prob := (((home_goals.zip away_goals).countP
      (fun p => decide (p.2 < p.1)) : ℕ) : ℚ) / (sims : ℚ)
    away_win_prob := (((home_goals.zip away_goals).countP
      (fun p => decide (p.1 < p.2)) : ℕ) : ℚ) / (sims : ℚ)
    draw_prob := (((home_goals.zip away_goals).countP
      (fun p => decide (p.1 = p.2)) : ℕ) : ℚ) / (sims : ℚ)
    avg_home_goals := (home_goals.map (fun n => (n : ℚ))).sum / (home_goals.length : ℚ)
    avg_away_goals := (away_goals.map (fun n => (n : ℚ))).sum / (away_goals.length : ℚ)
    avg_total_goals := (home_goals.map (fun n => (n : ℚ))).sum / (home_goals.length : ℚ)
      + (away_goals.map (fun n => (n : ℚ))).sum / (away_goals.length : ℚ) }

/-- `monte_carlo_game` (src/main.py lines 158-177).  The generator
`np.random.default_rng()` is embedded as an explicit state `rng : σ`
together with a deterministic sampling function
`sampler : σ → ℚ → ℕ → List ℕ × σ` standing for `rng.poisson(lam, sims)`
(numpy returns an array of exactly `sims` draws and advances the
generator state); the home vector is drawn first, then the away vector
from the advanced state, as in the source. -/
def monte_carlo_game {σ : Type} (sampler : σ → ℚ → ℕ → List ℕ × σ) (rng : σ)
    (lam_home lam_away : ℚ) (sims : ℕ) : MCResult :=
  mc_aggregate (sampler rng lam_home sims).1
    (sampler (sampler rng lam_home sims).2 lam_away sims).1 sims

/-! Concrete records used by counterexamples and witnesses. -/

/-- A raw team with 5 games played and zero goals for
(`goalDifferential + goalAgainst = 0`). -/
def teamZeroGF : RawTeam :=
  { abrev := some "ZGF", abbrevAlt := none, teamName := some "Zero Goals"
    gamesPlayed := some 5, goalAgainst := some 10
    goalDifferential := some (-10), points := some 4 }

/-- A raw team with 3 games played, 6 goals against and 6 goals for. -/
def teamPlain : RawTeam :=
  { abrev := some "PLN", abbrevAlt := none, teamName := some "Plain"
    gamesPlayed := some 3, goalAgainst := some 6
    goalDifferential := some 0, points := some 2 }

/-- A skater (centre) with 10 season points in 2 games. -/
def skaterTwoGames : PlayerRec :=
  { name := "Skater A", team_abbrev := "MTL", gamesPlayed := 2, points := 10
    form5_ppg := 0, position := PyPos.pystr "C", pos := PyPos.pynone
    shots := 0, shotsOnGoal := 0, hits := 0, blocked := 0, plusMinus := 0
    penaltyMinutes := 0, corsiForPct := 50, toi_min := 0 }

/-- A skater (defenceman) used by the ranking-membership witness. -/
def skaterDefence : PlayerRec :=
  { name := "Skater B", team_abbrev := "TOR", gamesPlayed := 40, points := 12
    form5_ppg := 1, position := PyPos.pystr "D", pos := PyPos.pynone
    shots := 80, shotsOnGoal := 60, hits := 30, blocked := 50, plusMinus := 4
    penaltyMinutes := 20, corsiForPct := 52, toi_min := 18 }

/-- A goaltender (string position "G") with games played. -/
def goalieStr : PlayerRec :=
  { name := "Goalie A", team_abbrev := "ABC", gamesPlayed := 10, points := 1
    form5_ppg := 3, position := PyPos.pystr "G", pos := PyPos.pynone
    shots := 0, shotsOnGoal := 0, hits := 0, blocked := 0, plusMinus := 0
    penaltyMinutes := 0, corsiForPct := 50, toi_min := 60 }

/-- A goaltender whose position is a dict `{"code": "G"}`. -/
def goalieDict : PlayerRec :=
  { name := "Goalie B", team_abbrev := "NYR", gamesPlayed := 5, points := 0
    form5_ppg := 0, position := PyPos.pydict [("code", some "G")], pos := PyPos.pynone
    shots := 0, shotsOnGoal := 0, hits := 0, blocked := 0, plusMinus := 0
    penaltyMinutes := 0, corsiForPct := 50, toi_min := 58 }

/-- A skater whose position is spelled out as "Right Wing". -/
def skaterRightWing : PlayerRec :=
  { name := "Winger", team_abbrev := "MTL", gamesPlayed := 30, points := 25
    form5_ppg := 1, position := PyPos.pystr "Right Wing", pos := PyPos.pynone
    shots := 90, shotsOnGoal := 70, hits := 10, blocked := 5, plusMinus := 6
    penaltyMinutes := 8, corsiForPct := 53, toi_min := 16 }

/-- A matchup MTL (home) vs TOR (away). -/
def gameMtlTor : GameRec := { homeAbbrev := "MTL", awayAbbrev := "TOR" }

end Okey

namespace Okey

/-- Claim C1: for every pair of home/away team rows (fields possibly missing,
zero, or arbitrary rationals) and any home advantage, the pair returned by
`expected_goals_from_team_stats` satisfies `lam_home ∈ [0.2, 6.0]` and
`lam_away ∈ [0.1, 6.0]`. -/
theorem expected_goals_clamped (home away : TeamRow) (home_adv : ℚ) :
    (2/10 : ℚ) ≤ (expected_goals_from_team_stats home away home_adv).1 ∧
    (expected_goals_from_team_stats home away home_adv).1 ≤ 6 ∧
    (1/10 : ℚ) ≤ (expected_goals_from_team_stats home away home_adv).2 ∧
    (expected_goals_from_team_stats home away home_adv).2 ≤ 6 := by
  unfold expected_goals_from_team_stats
  refine ⟨le_max_left _ _, max_le (by norm_num) (min_le_left _ _),
    le_max_left _ _, max_le (by norm_num) (min_le_left _ _)⟩

/-- Claim C2: the player normalizer's `form_factor` always lies in
`[0.5, 1.5]`, and whenever the season points-per-game rate is not strictly
positive it equals exactly `1`. -/
theorem form_factor_bounds (form5 ppgv : ℚ) :
    (1/2 : ℚ) ≤ form_factor form5 ppgv ∧ form_factor form5 ppgv ≤ 3/2 ∧
    (ppgv ≤ 0 → form_factor form5 ppgv = 1) := by
  unfold form_factor clip
  refine ⟨le_min (by norm_num) (le_max_left _ _), min_le_left _ _, ?_⟩
  intro h
  rw [if_neg (by exact not_lt.mpr h)]
  norm_num

/-- Witness for C2 at the concrete input `form5 = 0`, `ppg = 0`
(a player with season rate zero gets form factor exactly 1). -/
theorem form_factor_bounds_witness :
    (1/2 : ℚ) ≤ form_factor 0 0 ∧ form_factor 0 0 ≤ 3/2 ∧ form_factor 0 0 = 1 :=
  ⟨(form_factor_bounds 0 0).1, (form_factor_bounds 0 0).2.1,
    (form_factor_bounds 0 0).2.2 (by norm_num)⟩

/-- Each trial lands in exactly one of the three outcome categories, so the
three elementwise comparison counts partition the trial list. -/
lemma countP_outcomes (l : List (ℕ × ℕ)) :
    l.countP (fun p => decide (p.2 < p.1)) + l.countP (fun p => decide (p.1 < p.2))
      + l.countP (fun p => decide (p.1 = p.2)) = l.length := by
  induction l with
  | nil => rfl
  | cons a l ih =>
    simp only [List.countP_cons, List.length_cons, decide_eq_true_eq]
    split_ifs <;> omega

/-- Claim C3: for any nonnegative lambdas and any trial count `sims ≥ 1`,
the three probabilities returned by `monte_carlo_game` sum to exactly `1`
in rational arithmetic, for every sampler that (like numpy's
`rng.poisson(lam, sims)`) returns exactly `sims` draws. -/
theorem mc_probs_sum_one {σ : Type} (sampler : σ → ℚ → ℕ → List ℕ × σ) (rng : σ)
    (lam_home lam_away : ℚ) (sims : ℕ)
    (hlamh : 0 ≤ lam_home) (hlama : 0 ≤ lam_away) (hs : 1 ≤ sims)
    (hlen : ∀ (s : σ) (lam : ℚ) (n : ℕ), ((sampler s lam n).1).length = n) :
    (monte_carlo_game sampler rng lam_home lam_away sims).home_win_prob
      + (monte_carlo_game sampler rng lam_home lam_away sims).away_win_prob
      + (monte_carlo_game sampler rng lam_home lam_away sims).draw_prob = 1 := by
  have hsne : ((sims : ℚ)) ≠ 0 := Nat.cast_ne_zero.mpr (by omega)
  unfold monte_carlo_game mc_aggregate
  simp only
  rw [div_add_div_same, div_add_div_same, ← Nat.cast_add, ← Nat.cast_add,
    countP_outcomes, List.length_zip, hlen, hlen, Nat.min_self]
  exact div_self hsne

/-- Witness for C3 with a concrete (constant) sampler, lambdas 1 and 2,
and 3 trials. -/
theorem mc_probs_sum_one_witness :
    (monte_carlo_game (fun (s : Unit) (_ : ℚ) (n : ℕ) => (List.replicate n 0, s))
        () 1 2 3).home_win_prob
      + (monte_carlo_game (fun (s : Unit) (_ : ℚ) (n : ℕ) => (List.replicate n 0, s))
        () 1 2 3).away_win_prob
      + (monte_carlo_game (fun (s : Unit) (_ : ℚ) (n : ℕ) => (List.replicate n 0, s))
        () 1 2 3).draw_prob = 1 :=
  mc_probs_sum_one _ () 1 2 3 (by norm_num) (by norm_num) (by norm_num)
    (fun s lam n => by simp)

/-- Claim C9: the generator state is explicit in the embedding, so two
simulation runs that are given the same seed — that is, whose samplers
produce the same draws from the given initial states, as a seeded PRNG
does — return identical probabilities (the whole result record is equal). -/
theorem mc_fixed_seed_deterministic {σ τ : Type} (f : σ → ℚ → ℕ → List ℕ × σ)
    (g : τ → ℚ → ℕ → List ℕ × τ) (s : σ) (t : τ) (lam_home lam_away : ℚ) (sims : ℕ)
    (h1 : (f s lam_home sims).1 = (g t lam_home sims).1)
    (h2 : (f (f s lam_home sims).2 lam_away sims).1
      = (g (g t lam_home sims).2 lam_away sims).1) :
    monte_carlo_game f s lam_home lam_away sims
      = monte_carlo_game g t lam_home lam_away sims := by
  unfold monte_carlo_game
  rw [h1, h2]

/-- Witness for C9: two syntactically different samplers that draw the same
goal vectors yield the same result record. -/
theorem mc_fixed_seed_deterministic_witness :
    monte_carlo_game (fun (s : Unit) (_ : ℚ) (n : ℕ) => (List.replicate n 0, s)) () 1 2 5
      = monte_carlo_game
        (fun (s : Unit) (_ : ℚ) (n : ℕ) => ((List.range n).map (fun _ => 0), s)) () 1 2 5 :=
  mc_fixed_seed_deterministic _ _ () () 1 2 5
    (by simp [List.map_const']) (by simp [List.map_const'])

/-- Claim C6: the per-team form-adjustment factor always lies in
`[0.85, 1.15]`, and it is exactly `1` for an empty abbreviation or for a
team with no players in the table. -/
theorem team_factor_bounds (abv : String) (ps : List PlayerRec) :
    (85/100 : ℚ) ≤ team_factor abv ps ∧ team_factor abv ps ≤ 115/100 ∧
    (abv = "" → team_factor abv ps = 1) ∧
    (teamPlayers abv ps = [] → team_factor abv ps = 1) := by
  unfold team_factor
  split_ifs with h1 h2
  · exact ⟨by norm_num, by norm_num, fun _ => rfl, fun _ => rfl⟩
  · exact ⟨by norm_num, by norm_num, fun hc => absurd hc h1, fun _ => rfl⟩
  · refine ⟨le_max_left _ _, max_le (by norm_num) (min_le_left _ _),
      fun hc => absurd hc h1, fun hc => absurd ?_ h2⟩
    rw [hc]
    rfl

/-- Witness for C6: a team abbreviation with no players in the table gets
factor exactly 1, inside the clamp band. -/
theorem team_factor_bounds_witness :
    (85/100 : ℚ) ≤ team_factor "NOP" [] ∧ team_factor "NOP" [] ≤ 115/100 ∧
    team_factor "NOP" [] = 1 :=
  ⟨(team_factor_bounds "NOP" []).1, (team_factor_bounds "NOP" []).2.1,
    (team_factor_bounds "NOP" []).2.2.2 rfl⟩

/-- Every row of the effectiveness table comes from a player of the input
table that the eligibility filter kept: on one of the two teams and not a
goaltender. -/
lemma exists_source_of_mem_effective (game : GameRec) (ps : List PlayerRec)
    (row : EffRow) (h : row ∈ effective_players_for_game game ps) :
    ∃ p, p ∈ ps ∧ is_goalie p.position p.pos = false ∧ row = mkRow p := by
  unfold effective_players_for_game at h
  split_ifs at h with he
  · cases h
  · rw [List.mem_insertionSort] at h
    obtain ⟨p, hp, he⟩ := List.mem_map.mp h
    unfold eligible_players at hp
    rw [List.mem_filter] at hp
    obtain ⟨hmem, hcond⟩ := hp
    simp only [Bool.and_eq_true, Bool.not_eq_true'] at hcond
    exact ⟨p, hmem, hcond.2, he.symm⟩

/-- Claim C7: no player flagged as a goaltender appears in the table
returned by `_effective_players_for_game` — every row originates from a
non-goalie input player. -/
theorem no_goalie_in_ranking (game : GameRec) (ps : List PlayerRec)
    (row : EffRow) (h : row ∈ effective_players_for_game game ps) :
    ∃ p, p ∈ ps ∧ is_goalie p.position p.pos = false ∧ row = mkRow p :=
  exists_source_of_mem_effective game ps row h

/-- Witness for C7: the ranking of a single-skater table contains that
skater's row, and the theorem traces it back to the non-goalie source. -/
theorem no_goalie_in_ranking_witness :
    ∃ p, p ∈ [skaterDefence] ∧ is_goalie p.position p.pos = false ∧
      mkRow skaterDefence = mkRow p :=
  no_goalie_in_ranking gameMtlTor [skaterDefence] (mkRow skaterDefence)
    (List.mem_singleton_self (mkRow skaterDefence))

/-- Counterexample to C4 as stated: for the skater with 10 season points in
2 games (whose row the ranker does produce), the stored ranking score is
not `adj_score + 0.002·points + min(gp,82)/1000` — the code's tie-breaker
multiplies 0.002 by points **per game**, not by the season points total. -/
theorem tiebreak_points_total_counterexample :
    mkRow skaterTwoGames ∈ effective_players_for_game gameMtlTor [skaterTwoGames] ∧
    (mkRow skaterTwoGames).adj_score ≠ adj_score skaterTwoGames
      + 2/1000 * skaterTwoGames.points
      + ((min skaterTwoGames.gamesPlayed 82 : ℕ) : ℚ) / 1000 := by
  refine ⟨List.mem_singleton_self (mkRow skaterTwoGames), ?_⟩
  norm_num [mkRow, adj_score, tie_break, base_score, ppg, ppg_val, shots_pg,
    sog_pg, hits_pg, blocks_pg, pim_pg, skaterTwoGames]

/-- Claim C4 (amended): the stored ranking score equals `adj_score` plus a
tie-breaker of 0.002 times the player's season points-per-game rate plus
`min(gamesPlayed, 82) / 1000`. -/
theorem ranking_score_tiebreak (p : PlayerRec) :
    (mkRow p).adj_score = adj_score p + 2/1000 * ppg p
      + ((min p.gamesPlayed 82 : ℕ) : ℚ) / 1000 := by
  simp only [mkRow, tie_break]
  ring

/-- Counterexample to C8 as stated: a goaltender with games played on team
"ABC" is among the contributors whose form factors
`apply_player_form_adjustment` averages — the contributor selection never
consults the position. -/
theorem form_contributors_goalie_counterexample :
    is_goalie goalieStr.position goalieStr.pos = true ∧
    goalieStr ∈ teamCandidates "ABC" [goalieStr] :=
  ⟨by decide, List.mem_singleton_self goalieStr⟩

/-- Claim C8 (amended): the contributor set averaged by
`apply_player_form_adjustment` is selected by team abbreviation and games
played only; a goaltender is not excluded — any matching player with games
played is a contributor. -/
theorem form_contributors_ignore_position (p : PlayerRec) (abv : String)
    (hteam : pyUpper p.team_abbrev = pyUpper abv) (hgp : 0 < p.gamesPlayed) :
    p ∈ teamCandidates abv [p] := by
  unfold teamCandidates teamPlayers
  simp [List.filter_cons, hteam, hgp, List.insertionSort, List.orderedInsert]

/-- Witness for C8 at a concrete goaltender (dict position `{"code": "G"}`)
on team "NYR" with 5 games played. -/
theorem form_contributors_ignore_position_witness :
    is_goalie goalieDict.position goalieDict.pos = true ∧
    goalieDict ∈ teamCandidates "NYR" [goalieDict] :=
  ⟨by decide, form_contributors_ignore_position goalieDict "NYR" rfl (by decide)⟩

/-- A single character occurring in a list is a contiguous sublist of it. -/
lemma hasSub_singleton_of_mem (c : Char) (l : List Char) (h : c ∈ l) :
    hasSub [c] l = true := by
  induction l with
  | nil => cases h
  | cons a t ih =>
    rcases List.mem_cons.mp h with rfl | h2
    · simp [hasSub, List.isPrefixOf]
    · simp [hasSub, ih h2]

/-- On a nonempty string position, `_is_goalie` reduces to the two
substring tests on the upper-cased string. -/
lemma is_goalie_pystr (s : String) (q : PyPos) (hs : s ≠ "") :
    is_goalie (PyPos.pystr s) q
      = (strHas (pyUpper s) "G" || strHas (pyUpper s) "GOAL") := by
  unfold is_goalie
  have hfal : (PyPos.pystr s).falsy = false := by
    simp [PyPos.falsy, hs]
  rw [hfal]
  rfl

/-- On a dict position `{"code": c}` with nonempty `c`, `_is_goalie`
reduces to the substring tests on the upper-cased code. -/
lemma is_goalie_pydict_code (s : String) (q : PyPos) (hs : s ≠ "") :
    is_goalie (PyPos.pydict [("code", some s)]) q
      = (strHas (pyUpper s) "G" || strHas (pyUpper s) "GOAL") := by
  unfold is_goalie
  have hfal : (PyPos.pydict [("code", some s)]).falsy = false := rfl
  rw [hfal]
  simp [PyPos.get, pyOrStr, hs]

/-- Claim C10: any nonempty position string (or dict code) whose upper-case
form contains the letter `G` is classified as a goaltender by `_is_goalie`;
in particular a skater whose position is spelled out as "Right Wing" is
treated as a goaltender and excluded from the effectiveness ranking. -/
theorem goalie_test_matches_letter_g :
    (∀ (s : String) (q : PyPos), 'G' ∈ (pyUpper s).data →
      is_goalie (PyPos.pystr s) q = true) ∧
    (∀ (s : String) (q : PyPos), 'G' ∈ (pyUpper s).data →
      is_goalie (PyPos.pydict [("code", some s)]) q = true) ∧
    is_goalie skaterRightWing.position skaterRightWing.pos = true ∧
    effective_players_for_game gameMtlTor [skaterRightWing] = [] := by
  have hne : ∀ s : String, 'G' ∈ (pyUpper s).data → s ≠ "" := by
    intro s hmem e
    subst e
    exact absurd hmem (by decide)
  have hg : ∀ s : String, 'G' ∈ (pyUpper s).data → strHas (pyUpper s) "G" = true :=
    fun s hmem => hasSub_singleton_of_mem 'G' (pyUpper s).data hmem
  refine ⟨?_, ?_, by decide, rfl⟩
  · intro s q hmem
    rw [is_goalie_pystr s q (hne s hmem), Bool.or_eq_true]
    exact Or.inl (hg s hmem)
  · intro s q hmem
    rw [is_goalie_pydict_code s q (hne s hmem), Bool.or_eq_true]
    exact Or.inl (hg s hmem)

/-- Witness for C10 at the concrete position string "Right Wing". -/
theorem goalie_test_matches_letter_g_witness :
    is_goalie (PyPos.pystr "Right Wing") PyPos.pynone = true :=
  goalie_test_matches_letter_g.1 "Right Wing" PyPos.pynone (by decide)

/-- Counterexample to C5 as stated: the team `teamZeroGF` has 5 games
played and 0 goals for, so its scoring rate 0/5 = 0 is known — yet the
rate entering the λ formulas is the league default 2.7, because Python's
`or` also treats an exact-zero rate as missing. -/
theorem team_rate_default_counterexample :
    0 < (build_team_row teamZeroGF).gamesPlayed ∧
    (build_team_row teamZeroGF).goalFor = some 0 ∧
    entering_gf (build_team_row teamZeroGF)
      ≠ (((build_team_row teamZeroGF).goalFor.getD 0 : ℤ) : ℚ)
        / ((build_team_row teamZeroGF).gamesPlayed : ℚ) := by
  refine ⟨by norm_num [build_team_row, teamZeroGF], ?_, ?_⟩
  · norm_num [build_team_row, teamZeroGF]
  · norm_num [entering_gf, build_team_row, teamZeroGF, pyOrQ]

/-- Claim C5 (amended): the per-game rates computed by `build_team_df`
equal aggregate over games played when games played is positive (and are
unknown otherwise), and the rate entering the λ formulas equals that
per-game rate when it is known **and nonzero**; the league defaults
(2.7 for gf, 2.9 for ga) are substituted both when the rate is unknown
(games played = 0) and when the computed rate is exactly zero. -/
theorem team_rate_defaults (t : RawTeam) :
    entering_gf (build_team_row t)
      = (if 0 < t.gamesPlayed.getD 0 ∧
            (((t.goalDifferential.getD 0 + t.goalAgainst.getD 0 : ℤ) : ℚ)
              / (t.gamesPlayed.getD 0 : ℚ)) ≠ 0
          then ((t.goalDifferential.getD 0 + t.goalAgainst.getD 0 : ℤ) : ℚ)
            / (t.gamesPlayed.getD 0 : ℚ)
          else 27/10) ∧
    entering_ga (build_team_row t)
      = (if 0 < t.gamesPlayed.getD 0 ∧
            (((t.goalAgainst.getD 0 : ℤ) : ℚ) / (t.gamesPlayed.getD 0 : ℚ)) ≠ 0
          then ((t.goalAgainst.getD 0 : ℤ) : ℚ) / (t.gamesPlayed.getD 0 : ℚ)
          else 29/10) ∧
    (0 < t.gamesPlayed.getD 0 →
      (build_team_row t).gf_per_game
        = some (((t.goalDifferential.getD 0 + t.goalAgainst.getD 0 : ℤ) : ℚ)
            / (t.gamesPlayed.getD 0 : ℚ)) ∧
      (build_team_row t).ga_per_game
        = some (((t.goalAgainst.getD 0 : ℤ) : ℚ) / (t.gamesPlayed.getD 0 : ℚ))) ∧
    (t.gamesPlayed.getD 0 = 0 →
      (build_team_row t).gf_per_game = none ∧ (build_team_row t).ga_per_game = none) := by
  by_cases hgp : t.gamesPlayed.getD 0 = 0
  · refine ⟨?_, ?_, fun hc => absurd hgp (by omega), fun _ => ?_⟩
    · simp [entering_gf, build_team_row, pyOrQ, hgp]
    · simp [entering_ga, build_team_row, pyOrQ, hgp]
    · simp [build_team_row, hgp]
  · have h0 : 0 < t.gamesPlayed.getD 0 := Nat.pos_of_ne_zero hgp
    refine ⟨?_, ?_, fun _ => ⟨by simp [build_team_row, hgp], by simp [build_team_row, hgp]⟩,
      fun hc => absurd hc hgp⟩
    · by_cases hz : (((t.goalDifferential.getD 0 + t.goalAgainst.getD 0 : ℤ) : ℚ)
          / (t.gamesPlayed.getD 0 : ℚ)) = 0
      · simp [entering_gf, build_team_row, pyOrQ, hgp, hz, h0]
      · simp [entering_gf, build_team_row, pyOrQ, hgp, hz, h0]
    · by_cases hz : (((t.goalAgainst.getD 0 : ℤ) : ℚ) / (t.gamesPlayed.getD 0 : ℚ)) = 0
      · simp [entering_ga, build_team_row, pyOrQ, hgp, hz, h0]
      · simp [entering_ga, build_team_row, pyOrQ, hgp, hz, h0]

/-- Witness for C5 at `teamPlain` (3 games, 6 goals for, 6 against):
both per-game rates are 2 and both enter the λ formulas unchanged. -/
theorem team_rate_defaults_witness :
    entering_gf (build_team_row teamPlain) = 2 ∧
    entering_ga (build_team_row teamPlain) = 2 ∧
    (build_team_row teamPlain).gf_per_game = some 2 := by
  have h := team_rate_defaults teamPlain
  refine ⟨?_, ?_, ?_⟩
  · rw [h.1]
    norm_num [teamPlain]
  · rw [h.2.1]
    norm_num [teamPlain]
  · rw [(h.2.2.1 (by norm_num [teamPlain])).1]
    norm_num [teamPlain]

end Okey
